import Mathlib

/-
Verification of `lib_turtlebot.py` (turtlebot go-to-pose control library).

The development shallowly embeds the Python source:
* `Math` utilities (`pi2pi`, `calc_dist`, `xytheta_to_T`, `T_to_xytheta`)
  become functions over `ℝ` and `Matrix (Fin 3) (Fin 3) ℝ`; Python's float
  modulo `a % b` (with `b > 0`) is `a - b * ⌊a / b⌋`.
* numpy values reaching `PidController` are 0-d scalars or 1-d arrays;
  they are embedded as the inductive `NpVal`, with `np.dot`, broadcasting
  addition/subtraction and in-place `+=` spelled out case by case.
* `PidController` state is the structure `PidState`; `compute` is a pure
  state-passing function.  The constructor's runtime type check is
  `pidInit`, returning `Except`.
* the body of the control loop in `Turtle._move_robot_to_pose` becomes
  `tick` (one iteration, recording every intermediate of the source) and
  `moveLoopAux`/`moveLoop` (the loop over a finite stream of poses, one
  pose per tick; the stream running out models an external shutdown).
* Python name-resolution failures (`AttributeError` on undefined methods,
  `TypeError` on a call missing a required argument) are modelled against
  the literal attribute tables of the source classes.
-/

open Real

namespace LibTurtlebot

/-! ### Geometry utilities (`class Math`) -/

/-- Two-argument arctangent as used by the source through `np.arctan2` and
`math.atan2`: the argument of the point `(x, y)`, in `(-π, π]`. -/
noncomputable def atan2 (y x : ℝ) : ℝ := Complex.arg ⟨x, y⟩

namespace Math

/-- Source `Math.xytheta_to_T`: 2D pose `(x, y, theta)` to a 3×3 homogeneous
transformation matrix. -/
noncomputable def xytheta_to_T (x y theta : ℝ) : Matrix (Fin 3) (Fin 3) ℝ :=
  Matrix.of ![![Real.cos theta, -Real.sin theta, x],
              ![Real.sin theta,  Real.cos theta, y],
              ![0, 0, 1]]

/-- Source `Math.T_to_xytheta`: decompose a 3×3 transformation matrix into
`(x, y, theta)`; the source asserts the 3×3 shape, which the matrix type
enforces here.  `theta = arctan2 (T 1 0) (T 0 0)`. -/
noncomputable def T_to_xytheta (T : Matrix (Fin 3) (Fin 3) ℝ) : ℝ × ℝ × ℝ :=
  (T 0 2, T 1 2, atan2 (T 1 0) (T 0 0))

/-- Source `Math.calc_dist`: `((x1 - x2)**2 + (y1 - y2)**2)**(0.5)`. -/
noncomputable def calc_dist (x1 y1 x2 y2 : ℝ) : ℝ :=
  Real.sqrt ((x1 - x2) ^ 2 + (y1 - y2) ^ 2)

/-- Source `Math.pi2pi`: `(theta + math.pi) % (2 * math.pi) - math.pi`, where
Python's float modulo for a positive divisor is `a % b = a - b * ⌊a / b⌋`. -/
noncomputable def pi2pi (theta : ℝ) : ℝ :=
  (theta + π) - 2 * π * (⌊(theta + π) / (2 * π)⌋ : ℝ) - π

end Math

/-! ### numpy values -/

/-- The numpy values reaching `PidController`: 0-d scalars (from
`np.array(float)` and from `np.dot` of two 1-d arrays) and 1-d arrays. -/
inductive NpVal where
  | scalar (r : ℝ)
  | vec (l : List ℝ)

/-- Whether an `NpVal` is a 0-d scalar. -/
def NpVal.isScalar : NpVal → Bool
  | .scalar _ => true
  | .vec _ => false

/-- Real dot product of two equal-length coefficient lists. -/
def dotR (l m : List ℝ) : ℝ := (List.zipWith (fun a b => a * b) l m).sum

/-- Source `np.dot`: scalar arguments multiply (broadcasting), two 1-d arrays give
their inner product (a 0-d scalar). -/
def dotNp : NpVal → NpVal → NpVal
  | .scalar a, .scalar b => .scalar (a * b)
  | .scalar a, .vec m => .vec (m.map (fun x => a * x))
  | .vec l, .scalar b => .vec (l.map (fun x => x * b))
  | .vec l, .vec m => .scalar (dotR l m)

/-- numpy `+` with broadcasting between 0-d scalars and 1-d arrays (a
length-1 array broadcasts against any length). -/
def addNp : NpVal → NpVal → NpVal
  | .scalar a, .scalar b => .scalar (a + b)
  | .scalar a, .vec m => .vec (m.map (fun x => a + x))
  | .vec l, .scalar b => .vec (l.map (fun x => x + b))
  | .vec l, .vec m =>
      if l.length = 1 then .vec (m.map (fun x => l.headD 0 + x))
      else if m.length = 1 then .vec (l.map (fun x => x + m.headD 0))
      else .vec (List.zipWith (fun a b => a + b) l m)

/-- numpy `-` with the same broadcasting as `addNp`. -/
def subNp : NpVal → NpVal → NpVal
  | .scalar a, .scalar b => .scalar (a - b)
  | .scalar a, .vec m => .vec (m.map (fun x => a - x))
  | .vec l, .scalar b => .vec (l.map (fun x => x - b))
  | .vec l, .vec m =>
      if l.length = 1 then .vec (m.map (fun x => l.headD 0 - x))
      else if m.length = 1 then .vec (l.map (fun x => x - m.headD 0))
      else .vec (List.zipWith (fun a b => a - b) l m)

/-- Multiplication of an `NpVal` by a Python float on the left
(`self._T * np.dot(...)`). -/
def mulScalarNp (t : ℝ) : NpVal → NpVal
  | .scalar r => .scalar (t * r)
  | .vec l => .vec (l.map (fun x => t * x))

/-- Division of an `NpVal` by a Python float (`np.dot(...) / self._T`). -/
noncomputable def divNp (v : NpVal) (t : ℝ) : NpVal :=
  match v with
  | .scalar r => .scalar (r / t)
  | .vec l => .vec (l.map (fun x => x / t))

/-- In-place `+=` of an `NpVal` into a stored 1-d array
(`self._err_inte += err`): a scalar or length-1 array broadcasts. -/
def ipAdd (l : List ℝ) : NpVal → List ℝ
  | .scalar r => l.map (fun x => x + r)
  | .vec m =>
      if m.length = 1 then l.map (fun x => x + m.headD 0)
      else List.zipWith (fun a b => a + b) l m

/-- Source `[0]` indexing of the value returned by `compute` (the loop writes
`pid_rho.compute(err=rho)[0]`; on the loop's path the value is always a
one-element 1-d array). -/
def NpVal.idx0 : NpVal → ℝ
  | .scalar r => r
  | .vec l => l.headD 0

/-! ### `PidController` -/

/-- The mutable state of a `PidController` instance: control period `_T`,
gain arrays `_P`, `_I`, `_D` (stored as 1-d arrays `np.zeros(dim) + gain`),
integral accumulator `_err_inte` and previous error `_err_prev`. -/
structure PidState where
  T : ℝ
  P : List ℝ
  I : List ℝ
  D : List ℝ
  err_inte : List ℝ
  err_prev : NpVal

/-- Source `PidController.compute`: `ctrl_val = 0`; `ctrl_val += np.dot(err, P)`;
`err_inte += err`; `ctrl_val += T * np.dot(err_inte, I)`;
`ctrl_val += np.dot(err - err_prev, D) / T`; `err_prev = err`; return
`ctrl_val`.  Mutation is rendered as state passing: the result is the
returned value together with the updated state. -/
noncomputable def compute (s : PidState) (err : NpVal) : NpVal × PidState :=
  let c1 := addNp (.scalar 0) (dotNp err (.vec s.P))
  let inte := ipAdd s.err_inte err
  let c2 := addNp c1 (mulScalarNp s.T (dotNp (.vec inte) (.vec s.I)))
  let c3 := addNp c2 (divNp (dotNp (subNp err s.err_prev) (.vec s.D)) s.T)
  (c3, { s with err_inte := inte, err_prev := err })

/-- State after feeding a sequence of errors through `compute`. -/
noncomputable def runPid (s : PidState) : List NpVal → PidState
  | [] => s
  | e :: es => runPid (compute s e).2 es

/-- The sequence of values returned by successive `compute` calls. -/
noncomputable def runOutputs (s : PidState) : List NpVal → List NpVal
  | [] => []
  | e :: es => (compute s e).1 :: runOutputs (compute s e).2 es

/-- The `PidState` produced by `PidController.__init__` for float gains
`(p, i, d)` and period `t`: `dim = 1`, gains `np.zeros(1) + g = [g]`,
accumulators zero. -/
def pidOfFloats (t p i d : ℝ) : PidState :=
  { T := t, P := [p], I := [i], D := [d], err_inte := [0], err_prev := .vec [0] }

/-- The `PidState` produced by `PidController.__init__` for ndarray gains
of equal length: `dim = len(P)`, accumulators zero of that length. -/
def pidOfVecs (t : ℝ) (P I D : List ℝ) : PidState :=
  { T := t, P := P, I := I, D := D,
    err_inte := List.replicate P.length 0,
    err_prev := .vec (List.replicate P.length 0) }

/-- Componentwise sum of two equal-length 1-d arrays. -/
def vadd (l m : List ℝ) : List ℝ := List.zipWith (fun a b => a + b) l m

/-- Componentwise difference of two equal-length 1-d arrays. -/
def vsub (l m : List ℝ) : List ℝ := List.zipWith (fun a b => a - b) l m

/-! ### `PidController.__init__` construction-time checks -/

/-- Python exceptions relevant to this library. -/
inductive PyErr where
  | attributeError (msg : String)
  | typeError (msg : String)
  | valueError (msg : String)
  | runtimeError (msg : String)
deriving DecidableEq

/-- A Python value passed as a PID gain: a float, an int (e.g. the literal
`0`, which is *not* a float for `isinstance`), or a numpy array. -/
inductive PyGain where
  | pyFloat (r : ℝ)
  | pyInt (n : ℤ)
  | nd (l : List ℝ)

/-- Source `isinstance(g, float)`. -/
def PyGain.isFloat : PyGain → Bool
  | .pyFloat _ => true
  | _ => false

/-- Source `isinstance(g, np.ndarray)`. -/
def PyGain.isNdarray : PyGain → Bool
  | .nd _ => true
  | _ => false

/-- Source `len(g)`; only evaluated by the source when the gain is an ndarray. -/
def PyGain.pyLen : PyGain → ℕ
  | .nd l => l.length
  | _ => 0

/-- The constructor's error message. -/
def pidTypeErrMsg : String :=
  "PidController: Data type of P,I,D coefficient is wrong."

/-- Source `np.zeros(dim) + g`: a scalar fills, an array of length `dim` (or a
broadcastable length) is taken elementwise, anything else is a numpy
`ValueError`. -/
def zerosAdd (dim : ℕ) : PyGain → Except PyErr (List ℝ)
  | .pyFloat r => .ok (List.replicate dim r)
  | .pyInt n => .ok (List.replicate dim (n : ℝ))
  | .nd l =>
      if l.length = dim then .ok l
      else if l.length = 1 then .ok (List.replicate dim (l.headD 0))
      else if dim = 1 then .ok l
      else .error (.valueError "operands could not be broadcast together")

/-- Source `PidController.__init__(T, P, I, D)`: `b1` iff all three gains are
Python floats, `b2` iff all three are ndarrays; if neither, raise
`RuntimeError`; otherwise `dim = 1 if b1 else len(P)` and the gain and
accumulator arrays are built with `np.zeros(dim) + g`. -/
def pidInit (t : ℝ) (P I D : PyGain) : Except PyErr PidState :=
  let b1 := P.isFloat && I.isFloat && D.isFloat
  let b2 := P.isNdarray && I.isNdarray && D.isNdarray
  if !b1 && !b2 then .error (.runtimeError pidTypeErrMsg)
  else
    let dim := if b1 then 1 else P.pyLen
    do
      let p ← zerosAdd dim P
      let i ← zerosAdd dim I
      let d ← zerosAdd dim D
      return { T := t, P := p, I := i, D := d,
               err_inte := List.replicate dim 0,
               err_prev := .vec (List.replicate dim 0) }

/-! ### The control loop of `Turtle._move_robot_to_pose` -/

/-- A robot pose `(x, y, theta)` as read by `get_robot_pose` each tick. -/
structure Pose where
  x : ℝ
  y : ℝ
  theta : ℝ

/-- Goal and tolerances of one `_move_robot_to_pose` call; `theta_goal`
is `none` for the drive-to-point mode. -/
structure LoopCfg where
  x_goal : ℝ
  y_goal : ℝ
  theta_goal : Option ℝ
  x_tol : ℝ
  y_tol : ℝ
  theta_tol : ℝ

/-- Source `MAX_V = 0.2` in the source. -/
def MAX_V : ℝ := 0.2

/-- Source `MAX_W = 0.6` in the source. -/
def MAX_W : ℝ := 0.6

/-- Source `MIN_V = 0.0` in the source. -/
def MIN_V : ℝ := 0

/-- Source `MIN_W = 0.0` in the source. -/
def MIN_W : ℝ := 0

/-- Control period `T = 0.05` in the source. -/
def loopT : ℝ := 0.05

/-- Source `exp_ratio = 1.0` in the source, used as the exponent on the PID
outputs (`val ** 1.0` is the identity on floats). -/
def exp_ratio : ℕ := 1

/-- Source `k_vals[0] = 0.5` (distance gain). -/
def k_rho : ℝ := 0.5

/-- Source `k_vals[1] = 1.0` (bearing gain). -/
def k_alpha : ℝ := 1.0

/-- Source `k_vals[2] = -0.5` (heading gain, used only when a goal heading is
given). -/
def k_beta_val : ℝ := -0.5

/-- Source `theta_goal = 0` when no goal heading is requested. -/
def thetaGoalOf (tg : Option ℝ) : ℝ := tg.getD 0

/-- Source `k_beta = 0` when no goal heading is requested, else `k_vals[2]`. -/
def kBetaOf (tg : Option ℝ) : ℝ := if tg.isSome then k_beta_val else 0

/-- The dim-1 controller state the loop body is written against: period
`T = 0.05`, proportional gain `k`, integral and derivative gains `0`,
zero-initialized accumulators (what `PidController(T, P=k, I=0.0, D=0.0)`
initializes; the source's own constructor calls are broken, see C4). -/
def mkPid (k : ℝ) : PidState := pidOfFloats loopT k 0 0

/-- The saturation of `v` and `w` in the source:
`max(lo, min(abs(val), hi)) * (1 if val > 0 else -1)`. -/
noncomputable def limitVel (lo hi val : ℝ) : ℝ :=
  max lo (min |val| hi) * (if val > 0 then 1 else -1)

/-- Every intermediate value of one iteration of the control loop body:
`alpha0`/`beta0` are `alpha`/`beta` as first computed, `alpha`/`beta` the
values after the direction check, `val_*` the `[0]`-indexed PID outputs,
`v_raw`/`w_raw` the velocities before the threshold, `v`/`w` the emitted
command, and `pid_*` the controller states after their `compute` calls. -/
structure TickData where
  rho : ℝ
  alpha0 : ℝ
  beta0 : ℝ
  sign : ℝ
  alpha : ℝ
  beta : ℝ
  val_rho : ℝ
  val_alpha : ℝ
  val_beta : ℝ
  v_raw : ℝ
  w_raw : ℝ
  v : ℝ
  w : ℝ
  pid_rho : PidState
  pid_alpha : PidState
  pid_beta : PidState

/-- Source `rho = Math.calc_dist(x, y, x_goal, y_goal)`. -/
noncomputable def tickRho (cfg : LoopCfg) (p : Pose) : ℝ :=
  Math.calc_dist p.x p.y cfg.x_goal cfg.y_goal

/-- Source `alpha = Math.pi2pi(math.atan2(y_goal - y, x_goal - x) - theta)` as
first computed, before the direction check. -/
noncomputable def tickAlpha0 (cfg : LoopCfg) (p : Pose) : ℝ :=
  Math.pi2pi (atan2 (cfg.y_goal - p.y) (cfg.x_goal - p.x) - p.theta)

/-- Source `beta = - theta - alpha + theta_goal` as first computed. -/
noncomputable def tickBeta0 (cfg : LoopCfg) (p : Pose) : ℝ :=
  -p.theta - tickAlpha0 cfg p + thetaGoalOf cfg.theta_goal

/-- The direction check `abs(alpha) > math.pi/2` (goal behind the robot). -/
def tickBehind (cfg : LoopCfg) (p : Pose) : Prop :=
  |tickAlpha0 cfg p| > π / 2

open scoped Classical in
/-- Source `sign`: `-1` after the direction check fires, else the initial `1`. -/
noncomputable def tickSign (cfg : LoopCfg) (p : Pose) : ℝ :=
  if tickBehind cfg p then -1 else 1

open scoped Classical in
/-- Source `alpha` after the direction check
(`alpha = Math.pi2pi(math.pi - alpha)` when the goal is behind). -/
noncomputable def tickAlpha (cfg : LoopCfg) (p : Pose) : ℝ :=
  if tickBehind cfg p then Math.pi2pi (π - tickAlpha0 cfg p)
  else tickAlpha0 cfg p

open scoped Classical in
/-- Source `beta` after the direction check
(`beta = Math.pi2pi(math.pi - beta)` when the goal is behind). -/
noncomputable def tickBeta (cfg : LoopCfg) (p : Pose) : ℝ :=
  if tickBehind cfg p then Math.pi2pi (π - tickBeta0 cfg p)
  else tickBeta0 cfg p

/-- Source `val_rho = pid_rho.compute(err=rho)[0]`. -/
noncomputable def tickValRho (cfg : LoopCfg) (p : Pose) (pr : PidState) : ℝ :=
  (compute pr (.scalar (tickRho cfg p))).1.idx0

/-- Source `val_alpha = pid_alpha.compute(err=alpha)[0]`. -/
noncomputable def tickValAlpha (cfg : LoopCfg) (p : Pose) (pa : PidState) : ℝ :=
  (compute pa (.scalar (tickAlpha cfg p))).1.idx0

/-- Source `val_beta = pid_beta.compute(err=beta)[0]`. -/
noncomputable def tickValBeta (cfg : LoopCfg) (p : Pose) (pb : PidState) : ℝ :=
  (compute pb (.scalar (tickBeta cfg p))).1.idx0

/-- Source `v = sign * val_rho**exp_ratio` (before the velocity threshold). -/
noncomputable def tickVraw (cfg : LoopCfg) (p : Pose) (pr : PidState) : ℝ :=
  tickSign cfg p * tickValRho cfg p pr ^ exp_ratio

/-- Source `w = sign * (val_alpha + val_beta)**exp_ratio` (before the
velocity threshold). -/
noncomputable def tickWraw (cfg : LoopCfg) (p : Pose) (pa pb : PidState) : ℝ :=
  tickSign cfg p * (tickValAlpha cfg p pa + tickValBeta cfg p pb) ^ exp_ratio

/-- One iteration of the `while` body of `_move_robot_to_pose`, from the
pose read at the top of the tick to the `(v, w)` command emitted by
`set_robot_speed`, assembled from the per-line values above. -/
noncomputable def tick (cfg : LoopCfg) (p : Pose) (pr pa pb : PidState) :
    TickData :=
  { rho := tickRho cfg p, alpha0 := tickAlpha0 cfg p,
    beta0 := tickBeta0 cfg p, sign := tickSign cfg p,
    alpha := tickAlpha cfg p, beta := tickBeta cfg p,
    val_rho := tickValRho cfg p pr, val_alpha := tickValAlpha cfg p pa,
    val_beta := tickValBeta cfg p pb,
    v_raw := tickVraw cfg p pr, w_raw := tickWraw cfg p pa pb,
    v := limitVel MIN_V MAX_V (tickVraw cfg p pr),
    w := limitVel MIN_W MAX_W (tickWraw cfg p pa pb),
    pid_rho := (compute pr (.scalar (tickRho cfg p))).2,
    pid_alpha := (compute pa (.scalar (tickAlpha cfg p))).2,
    pid_beta := (compute pb (.scalar (tickBeta cfg p))).2 }

/-- The stop condition checked at the bottom of each tick against the pose
read at the top of that tick:
`abs(x - x_goal) < x_tol and abs(y - y_goal) < y_tol and
abs(theta - theta_goal) < theta_tol` (plain differences; the angle
difference is not renormalized). -/
def stopCond (cfg : LoopCfg) (p : Pose) : Prop :=
  |p.x - cfg.x_goal| < cfg.x_tol ∧ |p.y - cfg.y_goal| < cfg.y_tol ∧
    |p.theta - thetaGoalOf cfg.theta_goal| < cfg.theta_tol

open scoped Classical in
/-- The `while not rospy.is_shutdown()` loop over a finite stream of poses
(one pose per tick; exhausting the stream models an external shutdown);
returns the commands emitted by `set_robot_speed` inside the loop. -/
noncomputable def moveLoopAux (cfg : LoopCfg) :
    List Pose → PidState → PidState → PidState → List (ℝ × ℝ)
  | [], _, _, _ => []
  | p :: ps, pr, pa, pb =>
      let d := tick cfg p pr pa pb
      (d.v, d.w) ::
        (if stopCond cfg p then []
         else moveLoopAux cfg ps d.pid_rho d.pid_alpha d.pid_beta)

/-- Source `_move_robot_to_pose` emission trace: the loop's commands followed by
the final `set_robot_speed(v=0, w=0)` issued after the loop exits. -/
noncomputable def moveLoop (cfg : LoopCfg) (poses : List Pose)
    (pr pa pb : PidState) : List (ℝ × ℝ) :=
  moveLoopAux cfg poses pr pa pb ++ [(0, 0)]

/-- Source `Turtle._pose_robot2world` with the current pose made explicit (the
source reads it from the pose subscriber): compose the world-from-robot
and robot-from-goal transforms and decompose the product. -/
noncomputable def pose_robot2world (cur : Pose) (x_rg y_rg theta_rg : ℝ) :
    ℝ × ℝ × ℝ :=
  let T_wr := Math.xytheta_to_T cur.x cur.y cur.theta
  let T_rg := Math.xytheta_to_T x_rg y_rg theta_rg
  Math.T_to_xytheta (T_wr * T_rg)

/-! ### Python attribute tables and call-time failures -/

/-- The attributes defined on `class PidController` in the source. -/
def pidControllerAttrs : List String := ["__init__", "compute"]

/-- The attributes defined on `class Turtle` in the source. -/
def turtleAttrs : List String :=
  ["__init__", "reset_pose", "set_robot_speed", "get_robot_pose",
   "reset_time", "query_time", "print_state", "move_a_circle",
   "move_forward", "move_to_pose", "move_to_relative_pose",
   "_pose_robot2world", "_move_robot_to_pose", "_reset_pose_env_real",
   "_reset_pose_env_sim", "_callback_sub_pose_env_sim",
   "_callback_sub_pose_env_real"]

/-- Parameters of `PidController.__init__` without a default (`self`
aside): only `T`. -/
def pidRequiredParams : List String := ["T"]

/-- Keyword arguments at the constructor call sites in
`_move_robot_to_pose` (`PidController(P=..., I=0)`). -/
def pidLoopCallKeywords : List String := ["P", "I"]

/-- Whether those call sites bind every required parameter. -/
def pidCallBindsOk : Bool :=
  pidRequiredParams.all (fun s => s ∈ pidLoopCallKeywords)

/-- Whether an `Except` result is a success. -/
def exOk {α : Type} : Except PyErr α → Bool
  | .ok _ => true
  | .error _ => false

/-- Outcome of running a `Turtle` method: the velocity commands emitted
before the method either returned or raised. -/
structure PyRun where
  emitted : List (ℝ × ℝ)
  err : Option PyErr

/-- Source `Turtle._move_robot_to_pose` up to its first emission: the constants
are bound, then `PidController.set_control_period(T)` performs an
attribute lookup on the class; if that succeeded the source would next
call `PidController(P=k_rho, I=0)` (missing the required `T`, and with an
int gain that fails the constructor's type check).  No
`set_robot_speed` call precedes these statements. -/
def moveRobotToPoseRun (x_goal y_goal : ℝ) (theta_goal : Option ℝ)
    (x_tol y_tol theta_tol : ℝ) : PyRun :=
  if "set_control_period" ∈ pidControllerAttrs then
    if pidCallBindsOk then
      match pidInit loopT (.pyFloat k_rho) (.pyInt 0) (.pyInt 0) with
      | .error e => { emitted := [], err := some e }
      | .ok _ => { emitted := [], err := none }
    else
      { emitted := [],
        err := some (.typeError
          "__init__ missing 1 required positional argument: T") }
  else
    { emitted := [],
      err := some (.attributeError
        "type object PidController has no attribute set_control_period") }

/-- Source `Turtle.move_to_pose`: prints, then delegates to
`_move_robot_to_pose` with the configured tolerances. -/
def moveToPoseRun (x_goal y_goal : ℝ) (theta_goal : Option ℝ)
    (x_tol y_tol theta_tol : ℝ) : PyRun :=
  moveRobotToPoseRun x_goal y_goal theta_goal x_tol y_tol theta_tol

/-- Source `Turtle.move_to_relative_pose`: first calls `_pose_robot2world`,
whose first statement is `self._get_pose()` (an attribute lookup on the
instance); if that succeeded, the method would go on to call
`self._move_to_pose(...)`.  No `set_robot_speed` call precedes these
statements. -/
def moveToRelativePoseRun (x_rg y_rg theta_rg : ℝ) : PyRun :=
  if "_get_pose" ∈ turtleAttrs then
    if "_move_to_pose" ∈ turtleAttrs then { emitted := [], err := none }
    else
      { emitted := [],
        err := some (.attributeError
          "Turtle object has no attribute _move_to_pose") }
  else
    { emitted := [],
      err := some (.attributeError
        "Turtle object has no attribute _get_pose") }

/-! ### Theorems -/

/-- Helper: `pi2pi` rewritten through `Int.fract`. -/
theorem pi2pi_eq_fract (θ : ℝ) :
    Math.pi2pi θ = 2 * π * Int.fract ((θ + π) / (2 * π)) - π := by
  have h2 : (2 : ℝ) * π ≠ 0 := by positivity
  have hmul : 2 * π * ((θ + π) / (2 * π)) = θ + π := by field_simp
  unfold Math.pi2pi
  rw [Int.fract, mul_sub, hmul]

/-- Helper: `pi2pi π = -π` (the right endpoint maps to `-π`). -/
theorem pi2pi_pi : Math.pi2pi π = -π := by
  have h2 : (2 : ℝ) * π ≠ 0 := by positivity
  have h1 : (π + π) / (2 * π) = 1 := by field_simp; ring
  unfold Math.pi2pi
  rw [h1, Int.floor_one]
  push_cast
  ring

/-- Helper: `pi2pi 0 = 0`. -/
theorem pi2pi_zero : Math.pi2pi 0 = 0 := by
  have h2 : (2 : ℝ) * π ≠ 0 := by positivity
  have h1 : ((0 : ℝ) + π) / (2 * π) = 1 / 2 := by field_simp; ring
  have hfl : ⌊(1 / 2 : ℝ)⌋ = 0 := by
    rw [Int.floor_eq_zero_iff]
    constructor <;> norm_num
  unfold Math.pi2pi
  rw [h1, hfl]
  push_cast
  ring

/-- C6 (amended): for every real `theta`, `pi2pi theta` lies in the
half-open interval `[-π, π)` (not `(-π, π]`), and `pi2pi` is invariant
under adding `2π`. -/
theorem C6_pi2pi_range_and_period (θ : ℝ) :
    Math.pi2pi θ ∈ Set.Ico (-π) π ∧ Math.pi2pi (θ + 2 * π) = Math.pi2pi θ := by
  refine ⟨?_, ?_⟩
  · rw [pi2pi_eq_fract]
    have hpi : (0 : ℝ) < π := Real.pi_pos
    have hf0 : 0 ≤ Int.fract ((θ + π) / (2 * π)) := Int.fract_nonneg _
    have hf1 : Int.fract ((θ + π) / (2 * π)) < 1 := Int.fract_lt_one _
    constructor
    · nlinarith
    · nlinarith
  · have h2 : (2 : ℝ) * π ≠ 0 := by positivity
    have harg : (θ + 2 * π + π) / (2 * π) = (θ + π) / (2 * π) + 1 := by
      field_simp
      ring
    unfold Math.pi2pi
    rw [harg, Int.floor_add_one]
    push_cast
    ring

/-- C6 counterexample: at `theta = π` the source computes
`pi2pi π = -π`, which is not in the claimed codomain `(-π, π]`. -/
theorem C6_counterexample :
    Math.pi2pi π = -π ∧ Math.pi2pi π ∉ Set.Ioc (-π) π := by
  refine ⟨pi2pi_pi, ?_⟩
  rw [pi2pi_pi]
  simp [Set.mem_Ioc]

/-- C6 witness: the amended statement evaluated at `theta = π`. -/
theorem C6_witness :
    Math.pi2pi π ∈ Set.Ico (-π) π ∧
      Math.pi2pi (π + 2 * π) = Math.pi2pi π :=
  C6_pi2pi_range_and_period π

/-- Helper: `atan2 (sin θ) (cos θ) = θ` on `(-π, π]`. -/
theorem atan2_sin_cos {θ : ℝ} (hθ : θ ∈ Set.Ioc (-π) π) :
    atan2 (Real.sin θ) (Real.cos θ) = θ := by
  unfold atan2
  have h1 : (⟨Real.cos θ, Real.sin θ⟩ : ℂ) =
      Complex.cos θ + Complex.sin θ * Complex.I := by
    apply Complex.ext <;>
      simp [Complex.cos_ofReal_re, Complex.sin_ofReal_re,
        Complex.cos_ofReal_im, Complex.sin_ofReal_im]
  rw [h1, Complex.arg_cos_add_sin_mul_I hθ]

/-- C7 (amended): the decompose-compose round-trip
`T_to_xytheta (xytheta_to_T x y theta)` returns `(x, y, theta)` exactly
when `theta` lies in `atan2`'s codomain `(-π, π]` (the `x` and `y`
components round-trip unconditionally); for `theta` outside that interval
the angle comes back renormalized, not equal to the input. -/
theorem C7_roundtrip (x y θ : ℝ) (hθ : θ ∈ Set.Ioc (-π) π) :
    Math.T_to_xytheta (Math.xytheta_to_T x y θ) = (x, y, θ) := by
  unfold Math.T_to_xytheta Math.xytheta_to_T
  have h02 : (Matrix.of ![![Real.cos θ, -Real.sin θ, x],
      ![Real.sin θ, Real.cos θ, y], ![0, 0, 1]]) 0 2 = x := by simp
  have h12 : (Matrix.of ![![Real.cos θ, -Real.sin θ, x],
      ![Real.sin θ, Real.cos θ, y], ![0, 0, 1]]) 1 2 = y := by simp
  have h10 : (Matrix.of ![![Real.cos θ, -Real.sin θ, x],
      ![Real.sin θ, Real.cos θ, y], ![0, 0, 1]]) 1 0 = Real.sin θ := by simp
  have h00 : (Matrix.of ![![Real.cos θ, -Real.sin θ, x],
      ![Real.sin θ, Real.cos θ, y], ![0, 0, 1]]) 0 0 = Real.cos θ := by simp
  rw [h02, h12, h10, h00, atan2_sin_cos hθ]

/-- C7 witness: the round-trip at the concrete pose `(5, 7, π/2)`. -/
theorem C7_witness :
    Math.T_to_xytheta (Math.xytheta_to_T 5 7 (π / 2)) = (5, 7, π / 2) := by
  have hpi := Real.pi_pos
  exact C7_roundtrip 5 7 (π / 2) ⟨by linarith, by linarith⟩

/-- C7 counterexample: at `(0, 0, 2π)` the round-trip returns `(0, 0, 0)`,
not `(0, 0, 2π)`, refuting the claim's unrestricted quantification. -/
theorem C7_counterexample :
    Math.T_to_xytheta (Math.xytheta_to_T 0 0 (2 * π)) = (0, 0, 0) ∧
      Math.T_to_xytheta (Math.xytheta_to_T 0 0 (2 * π)) ≠ (0, 0, 2 * π) := by
  have hpi := Real.pi_pos
  have h : Math.T_to_xytheta (Math.xytheta_to_T 0 0 (2 * π)) = (0, 0, 0) := by
    unfold Math.T_to_xytheta Math.xytheta_to_T
    have h10 : (Matrix.of ![![Real.cos (2 * π), -Real.sin (2 * π), 0],
        ![Real.sin (2 * π), Real.cos (2 * π), 0], ![0, 0, 1]]) 1 0 =
        Real.sin (2 * π) := by simp
    have h00 : (Matrix.of ![![Real.cos (2 * π), -Real.sin (2 * π), 0],
        ![Real.sin (2 * π), Real.cos (2 * π), 0], ![0, 0, 1]]) 0 0 =
        Real.cos (2 * π) := by simp
    have harg : atan2 (Real.sin (2 * π)) (Real.cos (2 * π)) = 0 := by
      unfold atan2
      rw [Real.sin_two_pi, Real.cos_two_pi]
      have h1 : (⟨1, 0⟩ : ℂ) = 1 := by apply Complex.ext <;> simp
      rw [h1, Complex.arg_one]
    simp only [h10, h00, harg]
    simp
  refine ⟨h, ?_⟩
  rw [h]
  intro hc
  have : (0 : ℝ) = 2 * π := congrArg (fun p => p.2.2) hc
  nlinarith

/-- C8: frame conversion composes the current pose's transform with the
relative goal's transform and decomposes the product, and the concrete
scenario — robot at `(1, 1, π/2)`, relative goal `(1, 0, 0)` — resolves to
the world goal `(1, 2, π/2)`. -/
theorem C8_pose_robot2world :
    (∀ (cur : Pose) (x_rg y_rg theta_rg : ℝ),
        pose_robot2world cur x_rg y_rg theta_rg =
          Math.T_to_xytheta (Math.xytheta_to_T cur.x cur.y cur.theta *
            Math.xytheta_to_T x_rg y_rg theta_rg)) ∧
      pose_robot2world ⟨1, 1, π / 2⟩ 1 0 0 = (1, 2, π / 2) := by
  constructor
  · intro cur x_rg y_rg theta_rg
    rfl
  · unfold pose_robot2world Math.T_to_xytheta Math.xytheta_to_T
    have hc : Real.cos (π / 2) = 0 := Real.cos_pi_div_two
    have hs : Real.sin (π / 2) = 1 := Real.sin_pi_div_two
    have hc0 : Real.cos 0 = 1 := Real.cos_zero
    have hs0 : Real.sin 0 = 0 := Real.sin_zero
    rw [hc, hs, hc0, hs0]
    have harg : atan2 1 0 = π / 2 := by
      unfold atan2
      have h1 : (⟨0, 1⟩ : ℂ) = Complex.I := by apply Complex.ext <;> simp
      rw [h1, Complex.arg_I]
    refine Prod.ext ?_ (Prod.ext ?_ ?_) <;>
      simp [Matrix.mul_apply, Fin.sum_univ_three, Matrix.vecHead,
        Matrix.vecTail, harg] <;> norm_num

/-- C9 (amended): construction succeeds when the three gains are all
Python floats, or all ndarrays of equal length (zero accumulators of the
common shape); it raises the configuration `RuntimeError` — at
construction, before any `compute` — exactly when the gains are neither
all floats nor all ndarrays.  In particular the `isinstance(…, float)`
check rejects integer scalars, so "all scalars" is not sufficient. -/
theorem C9_pidInit_shape_check (t p i d : ℝ) (P I D : List ℝ) (n : ℕ)
    (hP : P.length = n) (hI : I.length = n) (hD : D.length = n)
    (G1 G2 G3 : PyGain)
    (hb1 : (G1.isFloat && G2.isFloat && G3.isFloat) = false)
    (hb2 : (G1.isNdarray && G2.isNdarray && G3.isNdarray) = false) :
    pidInit t (.pyFloat p) (.pyFloat i) (.pyFloat d) =
        .ok (pidOfFloats t p i d) ∧
      pidInit t (.nd P) (.nd I) (.nd D) = .ok (pidOfVecs t P I D) ∧
      pidInit t G1 G2 G3 = .error (.runtimeError pidTypeErrMsg) := by
  refine ⟨rfl, ?_, ?_⟩
  · have hIP : I.length = P.length := hI.trans hP.symm
    have hDP : D.length = P.length := hD.trans hP.symm
    simp [pidInit, zerosAdd, PyGain.isFloat, PyGain.isNdarray, PyGain.pyLen,
      pidOfVecs, hIP, hDP, Bind.bind, Except.bind, Pure.pure, Except.pure]
  · simp [pidInit, hb1, hb2]

/-- C9 witness: floats `(1, 2, 3)` succeed, arrays `[1,2],[3,4],[5,6]`
succeed, and the mixed pair (`float`, `int`, `int`) raises. -/
theorem C9_witness :
    pidInit 1 (.pyFloat 1) (.pyFloat 2) (.pyFloat 3) =
        .ok (pidOfFloats 1 1 2 3) ∧
      pidInit 1 (.nd [1, 2]) (.nd [3, 4]) (.nd [5, 6]) =
        .ok (pidOfVecs 1 [1, 2] [3, 4] [5, 6]) ∧
      pidInit 1 (.pyFloat 1) (.pyInt 0) (.pyInt 0) =
        .error (.runtimeError pidTypeErrMsg) :=
  C9_pidInit_shape_check 1 1 2 3 [1, 2] [3, 4] [5, 6] 2
    rfl rfl rfl (.pyFloat 1) (.pyInt 0) (.pyInt 0) rfl rfl

/-- C9 counterexample: three integer scalars — all of the same "shape" —
are rejected by the constructor's `isinstance(…, float)` check, refuting
"succeeds whenever the three gains are all scalars". -/
theorem C9_counterexample :
    pidInit 1 (.pyInt 0) (.pyInt 0) (.pyInt 0) =
        .error (.runtimeError pidTypeErrMsg) ∧
      exOk (pidInit 1 (.pyInt 0) (.pyInt 0) (.pyInt 0)) = false :=
  ⟨rfl, rfl⟩

/-- C4: both public move entry points fail before any velocity command is
emitted: `_move_robot_to_pose` reaches the undefined
`PidController.set_control_period` (and, behind it, a constructor call
missing the required `T` whose int gains fail the float/ndarray type
check), and `move_to_relative_pose` reaches the undefined `_get_pose`
inside `_pose_robot2world` (with the undefined `_move_to_pose` behind
it). -/
theorem C4_move_calls_raise_before_emitting (x_goal y_goal : ℝ)
    (theta_goal : Option ℝ) (x_tol y_tol theta_tol : ℝ)
    (x_rg y_rg theta_rg : ℝ) (t : ℝ) :
    (moveToPoseRun x_goal y_goal theta_goal x_tol y_tol theta_tol).emitted
        = [] ∧
      (moveToPoseRun x_goal y_goal theta_goal x_tol y_tol theta_tol).err =
        some (.attributeError
          "type object PidController has no attribute set_control_period") ∧
      (moveToRelativePoseRun x_rg y_rg theta_rg).emitted = [] ∧
      (moveToRelativePoseRun x_rg y_rg theta_rg).err =
        some (.attributeError
          "Turtle object has no attribute _get_pose") ∧
      "set_control_period" ∉ pidControllerAttrs ∧
      pidCallBindsOk = false ∧
      pidInit t (.pyFloat k_rho) (.pyInt 0) (.pyInt 0) =
        .error (.runtimeError pidTypeErrMsg) ∧
      "_get_pose" ∉ turtleAttrs ∧
      "_move_to_pose" ∉ turtleAttrs := by
  refine ⟨rfl, rfl, rfl, rfl, ?_, rfl, rfl, ?_, ?_⟩ <;> decide

/-- Helper: `runPid` never changes the period or the gain arrays. -/
theorem runPid_gains (s : PidState) (es : List NpVal) :
    (runPid s es).T = s.T ∧ (runPid s es).P = s.P ∧
      (runPid s es).I = s.I ∧ (runPid s es).D = s.D := by
  induction es generalizing s with
  | nil => exact ⟨rfl, rfl, rfl, rfl⟩
  | cons e es ih => exact ih (compute s e).2

/-- C10: `compute` changes only the integral and previous-error
accumulators — period `T` and the gain arrays `P`, `I`, `D` are untouched,
both per call and across any call sequence — and the outputs are a pure
function of the starting state and the error sequence. -/
theorem C10_compute_frame (s : PidState) (e : NpVal) (es : List NpVal)
    (s1 s2 : PidState) (es1 es2 : List NpVal)
    (hs : s1 = s2) (hes : es1 = es2) :
    (compute s e).2.T = s.T ∧ (compute s e).2.P = s.P ∧
      (compute s e).2.I = s.I ∧ (compute s e).2.D = s.D ∧
      (runPid s es).T = s.T ∧ (runPid s es).P = s.P ∧
      (runPid s es).I = s.I ∧ (runPid s es).D = s.D ∧
      runOutputs s1 es1 = runOutputs s2 es2 := by
  obtain ⟨h1, h2, h3, h4⟩ := runPid_gains s es
  exact ⟨rfl, rfl, rfl, rfl, h1, h2, h3, h4, by rw [hs, hes]⟩

/-- C10 witness: the frame conditions at a concrete state and error
sequence. -/
theorem C10_witness :
    (compute (pidOfFloats 1 2 3 4) (.scalar 5)).2.T = (pidOfFloats 1 2 3 4).T ∧
      (compute (pidOfFloats 1 2 3 4) (.scalar 5)).2.P = (pidOfFloats 1 2 3 4).P ∧
      (compute (pidOfFloats 1 2 3 4) (.scalar 5)).2.I = (pidOfFloats 1 2 3 4).I ∧
      (compute (pidOfFloats 1 2 3 4) (.scalar 5)).2.D = (pidOfFloats 1 2 3 4).D ∧
      (runPid (pidOfFloats 1 2 3 4) [.scalar 5, .scalar 6]).T = (pidOfFloats 1 2 3 4).T ∧
      (runPid (pidOfFloats 1 2 3 4) [.scalar 5, .scalar 6]).P = (pidOfFloats 1 2 3 4).P ∧
      (runPid (pidOfFloats 1 2 3 4) [.scalar 5, .scalar 6]).I = (pidOfFloats 1 2 3 4).I ∧
      (runPid (pidOfFloats 1 2 3 4) [.scalar 5, .scalar 6]).D = (pidOfFloats 1 2 3 4).D ∧
      runOutputs (pidOfFloats 1 2 3 4) [.scalar 5, .scalar 6] =
        runOutputs (pidOfFloats 1 2 3 4) [.scalar 5, .scalar 6] :=
  C10_compute_frame (pidOfFloats 1 2 3 4) (.scalar 5)
    [.scalar 5, .scalar 6] (pidOfFloats 1 2 3 4) (pidOfFloats 1 2 3 4)
    [.scalar 5, .scalar 6] [.scalar 5, .scalar 6] rfl rfl

/-- C1: whenever the bearing error `alpha` — computed as
`pi2pi(atan2(y_goal - y, x_goal - x) - theta)` — exceeds `π/2` in absolute
value, the tick replaces `alpha` by `pi2pi(π - alpha)` and `beta` by
`pi2pi(π - beta)`, sets `sign = -1` (else `sign = 1`), and the raw linear
velocity `v = sign * val_rho` is negative whenever the distance-PID output
`val_rho` is positive. -/
theorem C1_direction_sign_flip (cfg : LoopCfg) (p : Pose) (pr pa pb : PidState) :
    (tick cfg p pr pa pb).alpha0 =
        Math.pi2pi (atan2 (cfg.y_goal - p.y) (cfg.x_goal - p.x) - p.theta) ∧
      (|(tick cfg p pr pa pb).alpha0| > π / 2 →
        (tick cfg p pr pa pb).sign = -1 ∧
        (tick cfg p pr pa pb).alpha =
          Math.pi2pi (π - (tick cfg p pr pa pb).alpha0) ∧
        (tick cfg p pr pa pb).beta =
          Math.pi2pi (π - (tick cfg p pr pa pb).beta0) ∧
        (0 < (tick cfg p pr pa pb).val_rho →
          (tick cfg p pr pa pb).v_raw < 0)) ∧
      (¬|(tick cfg p pr pa pb).alpha0| > π / 2 →
        (tick cfg p pr pa pb).sign = 1) ∧
      (tick cfg p pr pa pb).v_raw =
        (tick cfg p pr pa pb).sign * (tick cfg p pr pa pb).val_rho := by
  refine ⟨rfl, ?_, ?_, ?_⟩
  · intro h
    have hb : tickBehind cfg p := h
    refine ⟨?_, ?_, ?_, ?_⟩
    · show tickSign cfg p = -1
      simp [tickSign, hb]
    · show tickAlpha cfg p = Math.pi2pi (π - tickAlpha0 cfg p)
      simp [tickAlpha, hb]
    · show tickBeta cfg p = Math.pi2pi (π - tickBeta0 cfg p)
      simp [tickBeta, hb]
    · intro hv
      have hv' : 0 < tickValRho cfg p pr := hv
      show tickVraw cfg p pr < 0
      unfold tickVraw exp_ratio
      simp [tickSign, hb, pow_one]
      exact hv'
  · intro h
    have hb : ¬tickBehind cfg p := h
    show tickSign cfg p = 1
    simp [tickSign, hb]
  · show tickVraw cfg p pr = tickSign cfg p * tickValRho cfg p pr
    unfold tickVraw exp_ratio
    rw [pow_one]

/-- C1 witness: robot at `(0, 0, 0)`, goal at `(-1, 0)` (directly behind):
`alpha` comes out as `-π`, the flip fires, and with a fresh distance PID
(`val_rho = 0.5 > 0`) the raw linear velocity is negative. -/
theorem C1_witness :
    (tick ⟨-1, 0, none, 0.01, 0.01, 0.1⟩ ⟨0, 0, 0⟩ (mkPid k_rho)
        (mkPid k_alpha) (mkPid 0)).sign = -1 ∧
      (tick ⟨-1, 0, none, 0.01, 0.01, 0.1⟩ ⟨0, 0, 0⟩ (mkPid k_rho)
        (mkPid k_alpha) (mkPid 0)).v_raw < 0 := by
  have halpha : tickAlpha0 ⟨-1, 0, none, 0.01, 0.01, 0.1⟩ ⟨0, 0, 0⟩ = -π := by
    unfold tickAlpha0
    show Math.pi2pi (atan2 ((0 : ℝ) - 0) ((-1 : ℝ) - 0) - 0) = -π
    have h1 : atan2 ((0 : ℝ) - 0) ((-1 : ℝ) - 0) = π := by
      unfold atan2
      have h2 : (⟨(-1 : ℝ) - 0, (0 : ℝ) - 0⟩ : ℂ) = -1 := by
        apply Complex.ext <;> simp
      rw [h2, Complex.arg_neg_one]
    rw [h1]
    norm_num [pi2pi_pi]
  have hflip : |(tick ⟨-1, 0, none, 0.01, 0.01, 0.1⟩ ⟨0, 0, 0⟩ (mkPid k_rho)
      (mkPid k_alpha) (mkPid 0)).alpha0| > π / 2 := by
    show |tickAlpha0 ⟨-1, 0, none, 0.01, 0.01, 0.1⟩ ⟨0, 0, 0⟩| > π / 2
    rw [halpha, abs_neg, abs_of_pos Real.pi_pos]
    linarith [Real.pi_pos]
  have hval : 0 < (tick ⟨-1, 0, none, 0.01, 0.01, 0.1⟩ ⟨0, 0, 0⟩ (mkPid k_rho)
      (mkPid k_alpha) (mkPid 0)).val_rho := by
    show 0 < tickValRho ⟨-1, 0, none, 0.01, 0.01, 0.1⟩ ⟨0, 0, 0⟩ (mkPid k_rho)
    unfold tickValRho tickRho
    have hrho : Math.calc_dist (0 : ℝ) 0 (-1) 0 = 1 := by
      unfold Math.calc_dist
      norm_num
    show 0 < (compute (mkPid k_rho) (.scalar (Math.calc_dist 0 0 (-1) 0))).1.idx0
    rw [hrho]
    norm_num [mkPid, pidOfFloats, k_rho, loopT, compute, dotNp, addNp, subNp,
      divNp, mulScalarNp, ipAdd, dotR, NpVal.idx0]
  obtain ⟨-, h2, -, -⟩ := C1_direction_sign_flip
    ⟨-1, 0, none, 0.01, 0.01, 0.1⟩ ⟨0, 0, 0⟩ (mkPid k_rho) (mkPid k_alpha)
    (mkPid 0)
  exact ⟨(h2 hflip).1, (h2 hflip).2.2.2 hval⟩

/-- C2: the stop test is exactly the conjunction of the three absolute
tolerance comparisons (the angle difference not renormalized); a tick
whose pose passes it is the loop's last (the loop breaks), a tick whose
pose fails it is followed by the rest of the loop, and the final command
of the emission trace — however the loop exits — is `(0, 0)`. -/
theorem C2_stop_and_final_zero (cfg : LoopCfg) (p : Pose)
    (ps poses : List Pose) (pr pa pb : PidState) :
    (stopCond cfg p ↔
        |p.x - cfg.x_goal| < cfg.x_tol ∧ |p.y - cfg.y_goal| < cfg.y_tol ∧
          |p.theta - thetaGoalOf cfg.theta_goal| < cfg.theta_tol) ∧
      (stopCond cfg p →
        moveLoopAux cfg (p :: ps) pr pa pb =
          [((tick cfg p pr pa pb).v, (tick cfg p pr pa pb).w)]) ∧
      (¬stopCond cfg p →
        moveLoopAux cfg (p :: ps) pr pa pb =
          ((tick cfg p pr pa pb).v, (tick cfg p pr pa pb).w) ::
            moveLoopAux cfg ps (tick cfg p pr pa pb).pid_rho
              (tick cfg p pr pa pb).pid_alpha
              (tick cfg p pr pa pb).pid_beta) ∧
      (moveLoop cfg poses pr pa pb).getLast? = some (0, 0) := by
  refine ⟨Iff.rfl, ?_, ?_, ?_⟩
  · intro h
    simp [moveLoopAux, h]
  · intro h
    simp [moveLoopAux, h]
  · rw [moveLoop, List.getLast?_concat]

/-- C2 witness: with the goal `(0, 0, 0)` already reached, the first tick
is the last one, and the trace ends in `(0, 0)`. -/
theorem C2_witness :
    moveLoopAux ⟨0, 0, some 0, 0.01, 0.01, 0.1⟩ [⟨0, 0, 0⟩] (mkPid k_rho)
        (mkPid k_alpha) (mkPid k_beta_val) =
      [((tick ⟨0, 0, some 0, 0.01, 0.01, 0.1⟩ ⟨0, 0, 0⟩ (mkPid k_rho)
          (mkPid k_alpha) (mkPid k_beta_val)).v,
        (tick ⟨0, 0, some 0, 0.01, 0.01, 0.1⟩ ⟨0, 0, 0⟩ (mkPid k_rho)
          (mkPid k_alpha) (mkPid k_beta_val)).w)] ∧
      (moveLoop ⟨0, 0, some 0, 0.01, 0.01, 0.1⟩ [] (mkPid k_rho)
        (mkPid k_alpha) (mkPid k_beta_val)).getLast? = some (0, 0) := by
  have h := C2_stop_and_final_zero ⟨0, 0, some 0, 0.01, 0.01, 0.1⟩ ⟨0, 0, 0⟩
    [] [] (mkPid k_rho) (mkPid k_alpha) (mkPid k_beta_val)
  refine ⟨h.2.1 ?_, h.2.2.2⟩
  norm_num [stopCond, thetaGoalOf]

/-- Helper: the saturated magnitude lies in `[lo, hi]`. -/
theorem limitVel_mem (lo hi r : ℝ) (h0 : 0 ≤ lo) (hlh : lo ≤ hi) :
    lo ≤ |limitVel lo hi r| ∧ |limitVel lo hi r| ≤ hi := by
  unfold limitVel
  have hmax0 : 0 ≤ max lo (min |r| hi) := le_trans h0 (le_max_left _ _)
  have habs : |max lo (min |r| hi) * (if r > 0 then (1 : ℝ) else -1)| =
      max lo (min |r| hi) := by
    by_cases h : r > 0
    · rw [if_pos h, mul_one, abs_of_nonneg hmax0]
    · rw [if_neg h, mul_neg_one, abs_neg, abs_of_nonneg hmax0]
  rw [habs]
  exact ⟨le_max_left _ _, max_le hlh (min_le_right _ _)⟩

/-- Helper: with `lo = 0 < hi` saturation preserves the sign. -/
theorem limitVel_sign (lo hi r : ℝ) (h0 : lo = 0) (hhi : 0 < hi) :
    (0 < r → 0 < limitVel lo hi r) ∧ (r < 0 → limitVel lo hi r < 0) ∧
      limitVel lo hi 0 = 0 := by
  subst h0
  unfold limitVel
  refine ⟨?_, ?_, ?_⟩
  · intro hr
    rw [if_pos hr, mul_one]
    have hm : 0 < min |r| hi := lt_min (abs_pos.mpr (ne_of_gt hr)) hhi
    exact lt_of_lt_of_le hm (le_max_right _ _)
  · intro hr
    rw [if_neg (not_lt.mpr hr.le)]
    have hm : 0 < min |r| hi := lt_min (abs_pos.mpr (ne_of_lt hr)) hhi
    have h2 : 0 < max 0 (min |r| hi) := lt_of_lt_of_le hm (le_max_right _ _)
    nlinarith
  · simp [abs_zero, min_eq_left hhi.le]

/-- Helper: every command the loop emits is a saturated tick command, so
its magnitudes respect the configured bounds. -/
theorem moveLoopAux_cmd_bounds (cfg : LoopCfg) (poses : List Pose) :
    ∀ (pr pa pb : PidState) (cmd : ℝ × ℝ),
      cmd ∈ moveLoopAux cfg poses pr pa pb →
      MIN_V ≤ |cmd.1| ∧ |cmd.1| ≤ MAX_V ∧ MIN_W ≤ |cmd.2| ∧ |cmd.2| ≤ MAX_W := by
  induction poses with
  | nil =>
    intro pr pa pb cmd h
    simp [moveLoopAux] at h
  | cons p ps ih =>
    intro pr pa pb cmd h
    rw [moveLoopAux] at h
    rcases List.mem_cons.mp h with hc | hc
    · subst hc
      have h1 := limitVel_mem MIN_V MAX_V (tickVraw cfg p pr)
        (by norm_num [MIN_V]) (by norm_num [MIN_V, MAX_V])
      have h2 := limitVel_mem MIN_W MAX_W (tickWraw cfg p pa pb)
        (by norm_num [MIN_W]) (by norm_num [MIN_W, MAX_W])
      exact ⟨h1.1, h1.2, h2.1, h2.2⟩
    · by_cases hs : stopCond cfg p
      · simp [hs] at hc
      · rw [if_neg hs] at hc
        exact ih _ _ _ _ hc

/-- C3: every command the loop emits (the final `(0,0)` aside) has `|v|`
clamped into `[MIN_V, MAX_V]` and `|w|` into `[MIN_W, MAX_W]`, and the
saturation preserves the pre-saturation sign; in particular `|v| ≤ MAX_V`
and `|w| ≤ MAX_W` for every PID output. -/
theorem C3_saturation (cfg : LoopCfg) (poses : List Pose)
    (pr pa pb : PidState) (cmd : ℝ × ℝ)
    (hmem : cmd ∈ moveLoopAux cfg poses pr pa pb) (r : ℝ) :
    (MIN_V ≤ |cmd.1| ∧ |cmd.1| ≤ MAX_V ∧
        MIN_W ≤ |cmd.2| ∧ |cmd.2| ≤ MAX_W) ∧
      (0 < r → 0 < limitVel MIN_V MAX_V r) ∧
      (r < 0 → limitVel MIN_V MAX_V r < 0) ∧
      limitVel MIN_V MAX_V 0 = 0 ∧
      (0 < r → 0 < limitVel MIN_W MAX_W r) ∧
      (r < 0 → limitVel MIN_W MAX_W r < 0) ∧
      limitVel MIN_W MAX_W 0 = 0 := by
  have hv := limitVel_sign MIN_V MAX_V r rfl (by norm_num [MAX_V])
  have hw := limitVel_sign MIN_W MAX_W r rfl (by norm_num [MAX_W])
  exact ⟨moveLoopAux_cmd_bounds cfg poses pr pa pb cmd hmem,
    hv.1, hv.2.1, hv.2.2, hw.1, hw.2.1, hw.2.2⟩

/-- C3 witness: the first command of a concrete run is in bounds, and
saturation preserves the sign of `1` and `-1`. -/
theorem C3_witness :
    (MIN_V ≤ |((tick ⟨-1, 0, none, 0.01, 0.01, 0.1⟩ ⟨0, 0, 0⟩ (mkPid k_rho)
          (mkPid k_alpha) (mkPid 0)).v,
        (tick ⟨-1, 0, none, 0.01, 0.01, 0.1⟩ ⟨0, 0, 0⟩ (mkPid k_rho)
          (mkPid k_alpha) (mkPid 0)).w).1| ∧
      |((tick ⟨-1, 0, none, 0.01, 0.01, 0.1⟩ ⟨0, 0, 0⟩ (mkPid k_rho)
          (mkPid k_alpha) (mkPid 0)).v,
        (tick ⟨-1, 0, none, 0.01, 0.01, 0.1⟩ ⟨0, 0, 0⟩ (mkPid k_rho)
          (mkPid k_alpha) (mkPid 0)).w).1| ≤ MAX_V ∧
      MIN_W ≤ |((tick ⟨-1, 0, none, 0.01, 0.01, 0.1⟩ ⟨0, 0, 0⟩ (mkPid k_rho)
          (mkPid k_alpha) (mkPid 0)).v,
        (tick ⟨-1, 0, none, 0.01, 0.01, 0.1⟩ ⟨0, 0, 0⟩ (mkPid k_rho)
          (mkPid k_alpha) (mkPid 0)).w).2| ∧
      |((tick ⟨-1, 0, none, 0.01, 0.01, 0.1⟩ ⟨0, 0, 0⟩ (mkPid k_rho)
          (mkPid k_alpha) (mkPid 0)).v,
        (tick ⟨-1, 0, none, 0.01, 0.01, 0.1⟩ ⟨0, 0, 0⟩ (mkPid k_rho)
          (mkPid k_alpha) (mkPid 0)).w).2| ≤ MAX_W) ∧
      (0 < (1 : ℝ) → 0 < limitVel MIN_V MAX_V 1) ∧
      ((1 : ℝ) < 0 → limitVel MIN_V MAX_V 1 < 0) ∧
      limitVel MIN_V MAX_V 0 = 0 ∧
      (0 < (1 : ℝ) → 0 < limitVel MIN_W MAX_W 1) ∧
      ((1 : ℝ) < 0 → limitVel MIN_W MAX_W 1 < 0) ∧
      limitVel MIN_W MAX_W 0 = 0 := by
  refine C3_saturation ⟨-1, 0, none, 0.01, 0.01, 0.1⟩ [⟨0, 0, 0⟩]
    (mkPid k_rho) (mkPid k_alpha) (mkPid 0) _ ?_ 1
  rw [moveLoopAux]
  exact List.mem_cons_self _ _

/-- Helper: in-place `+=` of an equal-length array is the componentwise
sum. -/
theorem ipAdd_vec_len (l m : List ℝ) (h : l.length = m.length) :
    ipAdd l (.vec m) = vadd l m := by
  unfold ipAdd vadd
  by_cases hm : m.length = 1
  · obtain ⟨b, rfl⟩ := List.length_eq_one.mp hm
    obtain ⟨a, rfl⟩ := List.length_eq_one.mp (by simpa using h)
    simp
  · simp [hm]

/-- Helper: `addNp` on equal-length arrays is the componentwise sum. -/
theorem addNp_vec_vec (l m : List ℝ) (h : l.length = m.length) :
    addNp (.vec l) (.vec m) = .vec (vadd l m) := by
  unfold addNp vadd
  by_cases hl : l.length = 1
  · obtain ⟨b, rfl⟩ := List.length_eq_one.mp (h.symm.trans hl)
    obtain ⟨a, rfl⟩ := List.length_eq_one.mp hl
    simp
  · have hm : ¬m.length = 1 := fun hm => hl (h.trans hm)
    simp [hl, hm]

/-- Helper: `subNp` on equal-length arrays is the componentwise
difference. -/
theorem subNp_vec_vec (l m : List ℝ) (h : l.length = m.length) :
    subNp (.vec l) (.vec m) = .vec (vsub l m) := by
  unfold subNp vsub
  by_cases hl : l.length = 1
  · obtain ⟨b, rfl⟩ := List.length_eq_one.mp (h.symm.trans hl)
    obtain ⟨a, rfl⟩ := List.length_eq_one.mp hl
    simp
  · have hm : ¬m.length = 1 := fun hm => hl (h.trans hm)
    simp [hl, hm]

/-- Helper: a dim-1 controller state after a history of scalar errors:
the integral accumulator holds the running sum, the previous error is the
last scalar (or the initial zero array when there is no history). -/
theorem runPid_scalar_state (t p i d a : ℝ) (prev : NpVal) (rs : List ℝ) :
    runPid ⟨t, [p], [i], [d], [a], prev⟩ (rs.map NpVal.scalar) =
      ⟨t, [p], [i], [d], [a + rs.sum], (rs.getLast?).elim prev NpVal.scalar⟩ := by
  induction rs generalizing a prev with
  | nil => simp [runPid]
  | cons r rs ih =>
    have hstep : (compute ⟨t, [p], [i], [d], [a], prev⟩ (NpVal.scalar r)).2 =
        ⟨t, [p], [i], [d], [a + r], NpVal.scalar r⟩ := by
      simp [compute, ipAdd]
    simp only [List.map_cons, runPid]
    rw [hstep, ih]
    cases rs with
    | nil => simp
    | cons r2 rs2 =>
      have hne : (r2 :: rs2).getLast? ≠ none := by simp
      obtain ⟨y, hy⟩ := Option.ne_none_iff_exists'.mp hne
      simp [List.getLast?_cons_cons, hy]
      ring

/-- Helper: a dim-`n` controller state after a history of length-`n`
vector errors: the integral accumulator folds the componentwise sums, the
previous error is the last vector (or the initial zero array). -/
theorem runPid_vec_state (t : ℝ) (n : ℕ) (Pv Iv Dv : List ℝ)
    (es : List (List ℝ)) :
    ∀ (acc prev : List ℝ), acc.length = n → (∀ l ∈ es, l.length = n) →
      runPid ⟨t, Pv, Iv, Dv, acc, .vec prev⟩ (es.map NpVal.vec) =
        ⟨t, Pv, Iv, Dv, es.foldl vadd acc, .vec (es.getLastD prev)⟩ := by
  induction es with
  | nil =>
    intro acc prev hacc hall
    simp [runPid]
  | cons e es ih =>
    intro acc prev hacc hall
    have he : e.length = n := hall e (List.mem_cons_self _ _)
    have hstep : (compute ⟨t, Pv, Iv, Dv, acc, .vec prev⟩ (NpVal.vec e)).2 =
        ⟨t, Pv, Iv, Dv, vadd acc e, NpVal.vec e⟩ := by
      simp [compute, ipAdd_vec_len acc e (hacc.trans he.symm)]
    simp only [List.map_cons, runPid]
    rw [hstep, ih (vadd acc e) e (by simp [vadd, hacc, he])
      (fun l hl => hall l (List.mem_cons_of_mem _ hl))]
    rw [List.foldl_cons, List.getLastD_cons]

/-- Helper: one `compute` on a scalar error from a dim-1 state whose
previous error is still the initial zero array. -/
theorem compute_scalar_prev_vec (t p i d a r : ℝ) :
    (compute ⟨t, [p], [i], [d], [a], NpVal.vec [0]⟩ (NpVal.scalar r)).1 =
        NpVal.vec [r * p + t * ((a + r) * i) + (r - 0) * d / t] ∧
      (compute ⟨t, [p], [i], [d], [a], NpVal.vec [0]⟩ (NpVal.scalar r)).2.err_inte
        = [a + r] ∧
      (compute ⟨t, [p], [i], [d], [a], NpVal.vec [0]⟩ (NpVal.scalar r)).2.err_prev
        = NpVal.scalar r := by
  refine ⟨?_, ?_, ?_⟩ <;>
    · simp [compute, dotNp, addNp, subNp, divNp, mulScalarNp, ipAdd, dotR]
      try ring

/-- Helper: one `compute` on a scalar error from a dim-1 state whose
previous error is the scalar `y`. -/
theorem compute_scalar_prev_scalar (t p i d a y r : ℝ) :
    (compute ⟨t, [p], [i], [d], [a], NpVal.scalar y⟩ (NpVal.scalar r)).1 =
        NpVal.vec [r * p + t * ((a + r) * i) + (r - y) * d / t] ∧
      (compute ⟨t, [p], [i], [d], [a], NpVal.scalar y⟩ (NpVal.scalar r)).2.err_inte
        = [a + r] ∧
      (compute ⟨t, [p], [i], [d], [a], NpVal.scalar y⟩ (NpVal.scalar r)).2.err_prev
        = NpVal.scalar r := by
  refine ⟨?_, ?_, ?_⟩ <;>
    · simp [compute, dotNp, addNp, subNp, divNp, mulScalarNp, ipAdd, dotR]
      try ring

/-- Helper: one `compute` on a length-`n` vector error from a dim-`n`
state: the returned value is the 0-d scalar sum of the three dot-product
terms. -/
theorem compute_vec_call (t : ℝ) (n : ℕ) (Pv Iv Dv acc prevv e : List ℝ)
    (hP : Pv.length = n) (hacc : acc.length = n) (hprev : prevv.length = n)
    (he : e.length = n) :
    (compute ⟨t, Pv, Iv, Dv, acc, .vec prevv⟩ (NpVal.vec e)).1 =
        NpVal.scalar (dotR e Pv + t * dotR (vadd acc e) Iv +
          dotR (vsub e prevv) Dv / t) ∧
      (compute ⟨t, Pv, Iv, Dv, acc, .vec prevv⟩ (NpVal.vec e)).2.err_inte =
        vadd acc e ∧
      (compute ⟨t, Pv, Iv, Dv, acc, .vec prevv⟩ (NpVal.vec e)).2.err_prev =
        NpVal.vec e := by
  have h1 : ipAdd acc (.vec e) = vadd acc e :=
    ipAdd_vec_len acc e (hacc.trans he.symm)
  have h2 : subNp (.vec e) (.vec prevv) = .vec (vsub e prevv) :=
    subNp_vec_vec e prevv (he.trans hprev.symm)
  refine ⟨?_, ?_, ?_⟩ <;>
    · simp [compute, h1, h2, dotNp, addNp, divNp, mulScalarNp]
      try ring

/-- Helper: folding componentwise sums of length-`n` arrays preserves the
length. -/
theorem foldl_vadd_len (n : ℕ) (es : List (List ℝ)) :
    ∀ acc : List ℝ, acc.length = n → (∀ l ∈ es, l.length = n) →
      (es.foldl vadd acc).length = n := by
  induction es with
  | nil =>
    intro acc hacc _
    simpa using hacc
  | cons e es ih =>
    intro acc hacc hall
    rw [List.foldl_cons]
    exact ih (vadd acc e)
      (by simp [vadd, hacc, hall e (List.mem_cons_self _ _)])
      (fun l hl => hall l (List.mem_cons_of_mem _ hl))

/-- Helper: the last of a list of length-`n` arrays (with a length-`n`
default) has length `n`. -/
theorem getLastD_len (n : ℕ) (es : List (List ℝ)) :
    ∀ dflt : List ℝ, dflt.length = n → (∀ l ∈ es, l.length = n) →
      (es.getLastD dflt).length = n := by
  induction es with
  | nil =>
    intro dflt hd _
    simpa using hd
  | cons e es ih =>
    intro dflt hd hall
    rw [List.getLastD_cons]
    exact ih e (hall e (List.mem_cons_self _ _))
      (fun l hl => hall l (List.mem_cons_of_mem _ hl))

/-- C5 counterexample: with dim-1 float gains `(1, 1, 1)`, period `1` and
a fresh controller, `compute` on the *scalar* error `2` returns the
one-element array `[6]`, not a scalar; with dim-2 ndarray gains, `compute`
on the *vector* error `[1, 2]` returns the scalar `9`, not a vector — the
returned shape is opposite to "matching the input shape". -/
theorem C5_counterexample :
    ((compute (pidOfFloats 1 1 1 1) (NpVal.scalar 2)).1).isScalar = false ∧
      (compute (pidOfFloats 1 1 1 1) (NpVal.scalar 2)).1 = NpVal.vec [6] ∧
      ((compute (pidOfVecs 1 [1, 1] [1, 1] [1, 1])
        (NpVal.vec [1, 2])).1).isScalar = true ∧
      (compute (pidOfVecs 1 [1, 1] [1, 1] [1, 1]) (NpVal.vec [1, 2])).1 =
        NpVal.scalar 9 := by
  refine ⟨?_, ?_, ?_, ?_⟩ <;>
    norm_num [compute, pidOfFloats, pidOfVecs, dotNp, addNp, subNp, divNp,
      mulScalarNp, ipAdd, dotR, NpVal.isScalar, List.replicate]

/-- C5 (amended): the `n`-th `compute(e_n)` returns
`dot(e_n, P) + T * dot(e_1 + … + e_n, I) + dot(e_n - e_mminus1, D) / T`
(with `e_0 = 0`) and updates the accumulators to `e_1 + … + e_n` and
`e_n`; the returned value is a one-element array for a scalar error and a
0-d scalar for a vector error (the shape opposite to the input, because
the gains are stored as arrays and `np.dot` of two 1-d arrays is 0-d). -/
theorem C5_compute_formula (t p i d r : ℝ) (rs : List ℝ)
    (n : ℕ) (Pv Iv Dv : List ℝ) (es : List (List ℝ)) (e : List ℝ)
    (hP : Pv.length = n) (hI : Iv.length = n) (hD : Dv.length = n)
    (he : e.length = n) (hes : ∀ l ∈ es, l.length = n) :
    ((compute (runPid (pidOfFloats t p i d) (rs.map NpVal.scalar))
          (NpVal.scalar r)).1 =
        NpVal.vec [r * p + t * ((rs.sum + r) * i) +
          (r - rs.getLastD 0) * d / t] ∧
      (compute (runPid (pidOfFloats t p i d) (rs.map NpVal.scalar))
          (NpVal.scalar r)).2.err_inte = [rs.sum + r] ∧
      (compute (runPid (pidOfFloats t p i d) (rs.map NpVal.scalar))
          (NpVal.scalar r)).2.err_prev = NpVal.scalar r) ∧
      ((compute (runPid (pidOfVecs t Pv Iv Dv) (es.map NpVal.vec))
          (NpVal.vec e)).1 =
        NpVal.scalar (dotR e Pv +
          t * dotR (vadd (es.foldl vadd (List.replicate n 0)) e) Iv +
          dotR (vsub e (es.getLastD (List.replicate n 0))) Dv / t) ∧
      (compute (runPid (pidOfVecs t Pv Iv Dv) (es.map NpVal.vec))
          (NpVal.vec e)).2.err_inte =
        vadd (es.foldl vadd (List.replicate n 0)) e ∧
      (compute (runPid (pidOfVecs t Pv Iv Dv) (es.map NpVal.vec))
          (NpVal.vec e)).2.err_prev = NpVal.vec e) := by
  constructor
  · have hrun : runPid (pidOfFloats t p i d) (rs.map NpVal.scalar) =
        ⟨t, [p], [i], [d], [0 + rs.sum], (rs.getLast?).elim (NpVal.vec [0])
          NpVal.scalar⟩ := runPid_scalar_state t p i d 0 (NpVal.vec [0]) rs
    rw [hrun]
    cases hlast : rs.getLast? with
    | none =>
      have hlD : rs.getLastD 0 = 0 := by
        simp [List.getLastD_eq_getLast?, hlast]
      obtain ⟨h1, h2, h3⟩ := compute_scalar_prev_vec t p i d (0 + rs.sum) r
      simp only [Option.elim_none]
      refine ⟨?_, ?_, h3⟩
      · rw [h1, hlD]
        simp only [NpVal.vec.injEq, List.cons.injEq, and_true]
        ring
      · rw [h2]
        simp only [List.cons.injEq, and_true]
        ring
    | some y =>
      have hlD : rs.getLastD 0 = y := by
        simp [List.getLastD_eq_getLast?, hlast]
      obtain ⟨h1, h2, h3⟩ := compute_scalar_prev_scalar t p i d (0 + rs.sum) y r
      simp only [Option.elim_some]
      refine ⟨?_, ?_, h3⟩
      · rw [h1, hlD]
        simp only [NpVal.vec.injEq, List.cons.injEq, and_true]
        ring
      · rw [h2]
        simp only [List.cons.injEq, and_true]
        ring
  · have hrep : (List.replicate n (0 : ℝ)).length = n := by simp
    have hpid : pidOfVecs t Pv Iv Dv =
        ⟨t, Pv, Iv, Dv, List.replicate n 0, .vec (List.replicate n 0)⟩ := by
      unfold pidOfVecs
      rw [hP]
    rw [hpid, runPid_vec_state t n Pv Iv Dv es (List.replicate n 0)
      (List.replicate n 0) hrep hes]
    exact compute_vec_call t n Pv Iv Dv _ _ e hP
      (foldl_vadd_len n es (List.replicate n 0) hrep hes)
      (getLastD_len n es (List.replicate n 0) hrep hes) he

/-- C5 witness: the amended statement at period `1`, float gains `(1,1,1)`
with history `[1]` and new scalar error `2`, and ndarray gains
`[1,1],[1,1],[1,1]` with empty history and vector error `[1,2]`. -/
theorem C5_witness :
    ((compute (runPid (pidOfFloats 1 1 1 1) ([1].map NpVal.scalar))
          (NpVal.scalar 2)).1 =
        NpVal.vec [2 * 1 + 1 * ((List.sum [1] + 2) * 1) +
          (2 - List.getLastD [1] 0) * 1 / 1] ∧
      (compute (runPid (pidOfFloats 1 1 1 1) ([1].map NpVal.scalar))
          (NpVal.scalar 2)).2.err_inte = [List.sum [1] + 2] ∧
      (compute (runPid (pidOfFloats 1 1 1 1) ([1].map NpVal.scalar))
          (NpVal.scalar 2)).2.err_prev = NpVal.scalar 2) ∧
      ((compute (runPid (pidOfVecs 1 [1, 1] [1, 1] [1, 1])
          (List.map NpVal.vec [])) (NpVal.vec [1, 2])).1 =
        NpVal.scalar (dotR [1, 2] [1, 1] +
          1 * dotR (vadd (List.foldl vadd (List.replicate 2 0) []) [1, 2]) [1, 1] +
          dotR (vsub [1, 2] (List.getLastD [] (List.replicate 2 0))) [1, 1] / 1) ∧
      (compute (runPid (pidOfVecs 1 [1, 1] [1, 1] [1, 1])
          (List.map NpVal.vec [])) (NpVal.vec [1, 2])).2.err_inte =
        vadd (List.foldl vadd (List.replicate 2 0) []) [1, 2] ∧
      (compute (runPid (pidOfVecs 1 [1, 1] [1, 1] [1, 1])
          (List.map NpVal.vec [])) (NpVal.vec [1, 2])).2.err_prev =
        NpVal.vec [1, 2]) :=
  C5_compute_formula 1 1 1 1 2 [1] 2 [1, 1] [1, 1] [1, 1] [] [1, 2]
    rfl rfl rfl rfl (by intro l hl; simp at hl)

end LibTurtlebot
